import Mathlib

/-!
Verification of the whatsapp_saas backend (src/backend/server.js, second
revision in the file, and src/backend/models/Contact.js), shallowly embedded
in Lean.  The Mongo/Mongoose layer is embedded as an explicit in-memory store
with the same validation and uniqueness semantics the schema declares; each
Express handler becomes a pure function from its inputs (request fields plus
the relevant environment variables) to the store update and the response.
-/

namespace WhatsappSaas

/-- A stored contact record, as produced by the Contact model: `id` is the
Mongo ObjectId string, `name` is stored trimmed (the schema sets trim on the
name path), `phone` is stored verbatim, `createdAt` is the creation
timestamp. -/
structure Contact where
  id : String
  name : String
  phone : String
  createdAt : Nat
deriving Repr, DecidableEq

/-- The contacts collection. -/
structure Store where
  contacts : List Contact
deriving Repr, DecidableEq

/-- JavaScript String.prototype.trim, as applied by the schema's trim option
on the name path: whitespace stripped from both ends. -/
def trimString (s : String) : String :=
  String.mk (((s.toList.dropWhile Char.isWhitespace).reverse.dropWhile
    Char.isWhitespace).reverse)

/-- The schema's phone shape check, the regex from Contact.js:
`/^\+[1-9]\d{1,14}$/` — a plus sign, one digit 1-9, then one to fourteen
further digits. -/
def validPhone (p : String) : Bool :=
  match p.toList with
  | '+' :: d :: rest =>
      ('1' ≤ d && d ≤ '9') && rest.all (fun c => c.isDigit)
        && (1 ≤ rest.length && rest.length ≤ 14)
  | _ => false

/-- Mongoose validation messages for a create, in schema path order (name,
then phone).  The name path trims and is required, so a name that is blank
after trimming fails required; the phone path is required and carries the
E.164 match validator with the message from Contact.js. -/
def validationMessages (name phone : String) : List String :=
  (if trimString name = "" then ["Please provide a name"] else [])
    ++ (if phone = "" then ["Please provide a phone number"]
        else if validPhone phone then []
        else ["Please provide a valid phone number in E.164 format"])

/-- Outcome of POST /api/contacts: the created record with its 201, or a
failure response with its HTTP status and message. -/
inductive CreateOutcome
  | created (c : Contact)
  | failed (status : Nat) (message : String)
deriving Repr, DecidableEq

/-- The handler for POST /api/contacts over the embedded store.  Mongoose
runs schema validation before the write, so a validation failure surfaces as
400 with the joined messages; a write whose phone collides with the unique
index surfaces as the duplicate-key error, which the handler maps to 409
with the literal message; otherwise the record is appended with the
store-assigned id and timestamp (passed in, since ObjectId generation and
the clock are external). -/
def createContact (s : Store) (name phone : String) (newId : String)
    (now : Nat) : Store × CreateOutcome :=
  let msgs := validationMessages name phone
  if msgs ≠ [] then
    (s, .failed 400 (String.intercalate ", " msgs))
  else if s.contacts.any (fun c => c.phone = phone) then
    (s, .failed 409 "Phone number already exists.")
  else
    let c : Contact := ⟨newId, trimString name, phone, now⟩
    (⟨s.contacts ++ [c]⟩, .created c)

/-- Every phone stored in the collection passes the schema's shape check;
this is the store invariant the unique-index scenario relies on, and it is
preserved by createContact (see createContact_preserves_phonesValid). -/
def phonesValid (s : Store) : Bool :=
  s.contacts.all (fun c => validPhone c.phone)

/-- The handler for GET /api/contacts: Contact.find().sort with name
ascending, i.e. the stored records ordered by name. -/
def listContacts (s : Store) : List Contact :=
  List.insertionSort (fun a b => a.name ≤ b.name) s.contacts

/-- Mongoose ObjectId well-formedness as checked by
mongoose.Types.ObjectId.isValid on a string: a 24-character hex string, or
any 12-character string (12 raw bytes). -/
def isHexChar (c : Char) : Bool :=
  c.isDigit || ('a' ≤ c && c ≤ 'f') || ('A' ≤ c && c ≤ 'F')

def isValidObjectId (s : String) : Bool :=
  (s.length = 24 && s.toList.all isHexChar) || s.length = 12

/-- Outcome of DELETE /api/contacts/:id. -/
inductive DeleteOutcome
  | success
  | invalidId
  | notFound
deriving Repr, DecidableEq

/-- HTTP status of each delete outcome: 200 with success true, 400 for a
malformed id, 404 when no record matches. -/
def deleteStatus : DeleteOutcome → Nat
  | .success => 200
  | .invalidId => 400
  | .notFound => 404

/-- The handler for DELETE /api/contacts/:id: rejects a malformed ObjectId
with 400 before querying; findByIdAndDelete removes the first record whose
id matches and returns it, or null, which the handler maps to 404. -/
def deleteContact (s : Store) (id : String) : Store × DeleteOutcome :=
  if isValidObjectId id = false then
    (s, .invalidId)
  else if s.contacts.any (fun c => c.id = id) then
    (⟨s.contacts.eraseP (fun c => c.id = id)⟩, .success)
  else
    (s, .notFound)

/-- JavaScript truthiness of an optional query-string or body field: present
and not the empty string. -/
def isTruthy (o : Option String) : Bool :=
  match o with
  | none => false
  | some s => s ≠ ""

/-- The webhook verify token: the WEBHOOK_VERIFY_TOKEN environment variable
when set and non-empty, otherwise the hard-coded fallback from server.js
(the JS expression is env || literal, so an empty env value also falls back). -/
def verifyToken (env : Option String) : String :=
  match env with
  | some s => if s ≠ "" then s else "merajWebhookToken"
  | none => "merajWebhookToken"

/-- Response of GET /api/webhook: 200 sending back the hub.challenge value
(which the handler never inspects, so it may be absent), 403 from sendStatus,
or the 400 for missing parameters. -/
inductive WebhookResponse
  | challengeReply (challenge : Option String)
  | forbidden
  | badRequest
deriving Repr, DecidableEq

def webhookStatus : WebhookResponse → Nat
  | .challengeReply _ => 200
  | .forbidden => 403
  | .badRequest => 400

/-- The handler for GET /api/webhook over the three hub query parameters:
when mode and token are both truthy, it compares mode against the literal
subscribe and token against the configured verify token, replying 200 with
the challenge on match and 403 otherwise; when mode or token is missing or
empty it replies 400.  The challenge parameter is never tested. -/
def webhookVerify (env : Option String) (mode token challenge : Option String) :
    WebhookResponse :=
  if isTruthy mode && isTruthy token then
    if mode = some "subscribe" && token = some (verifyToken env) then
      .challengeReply challenge
    else
      .forbidden
  else
    .badRequest

/-- A recipient entry of the bulk-send contacts array.  The handler performs
no per-element shape validation; it only reads name and phone when logging
the simulated send. -/
structure Recipient where
  name : String
  phone : String
deriving Repr, DecidableEq

/-- Result of running JSON.parse on the contacts form field and inspecting
the value, the only three cases the handler distinguishes: the parse throws
(also when the field is absent, since JSON.parse of undefined throws), the
parsed value is not an array, or it is an array of elements. -/
inductive ContactsField
  | parseFailure
  | notArray
  | arrayOf (recipients : List Recipient)
deriving Repr, DecidableEq

/-- The handler's hasTextContent: the content field is present and trims to
a non-empty string. -/
def hasTextContent (content : Option String) : Bool :=
  match content with
  | none => false
  | some s => trimString s ≠ ""

/-- Outcome of POST /api/send-bulk: the three 400 rejections with their
literal messages, or the 200 acceptance reporting the recipient count. -/
inductive BulkOutcome
  | emptyMessage
  | malformed
  | noContacts
  | accepted (count : Nat)
deriving Repr, DecidableEq

def bulkStatus : BulkOutcome → Nat
  | .emptyMessage => 400
  | .malformed => 400
  | .noContacts => 400
  | .accepted _ => 200

def bulkMessage : BulkOutcome → String
  | .emptyMessage => "A message must contain either text content or a media file."
  | .malformed => "Invalid contacts format."
  | .noContacts => "No contacts provided or invalid format."
  | .accepted n => "Message successfully sent to " ++ toString n ++ " contacts."

/-- The handler for POST /api/send-bulk, second revision in server.js: first
the empty-message check (no text content and no uploaded media file), then
JSON.parse of the contacts field, whose exception maps to the invalid-format
rejection, then the combined not-an-array-or-empty rejection, and otherwise
the simulated send is accepted reporting the array length. -/
def sendBulkValidate (content : Option String) (hasMedia : Bool)
    (contacts : ContactsField) : BulkOutcome :=
  if !hasTextContent content && !hasMedia then
    .emptyMessage
  else
    match contacts with
    | .parseFailure => .malformed
    | .notArray => .noContacts
    | .arrayOf l => if l.length = 0 then .noContacts else .accepted l.length

/-- The AI client is constructed at process start only when the API_KEY
environment variable is set and non-empty (JS truthiness of process.env). -/
def aiConfigured (apiKey : Option String) : Bool :=
  isTruthy apiKey

/-- Outcome of POST /api/generate-content. -/
inductive GenOutcome
  | notConfigured
  | headingRequired
  | content (text : String)
  | generationFailed
deriving Repr, DecidableEq

def genStatus : GenOutcome → Nat
  | .notConfigured => 503
  | .headingRequired => 400
  | .content _ => 200
  | .generationFailed => 500

/-- The handler for POST /api/generate-content: with no AI client it replies
503 at once; a missing or blank heading replies 400; otherwise it awaits the
downstream Gemini call, whose success or thrown error map to 200 and 500.
The downstream behaviour is an input (the external collaborator), and the
returned Bool records whether the downstream call was attempted. -/
def generateContentHandler (apiKey : Option String) (heading : Option String)
    (downstream : Except Unit String) : GenOutcome × Bool :=
  if !aiConfigured apiKey then
    (.notConfigured, false)
  else if !isTruthy (heading.map (·.trim)) then
    (.headingRequired, false)
  else
    match downstream with
    | .ok t => (.content t, true)
    | .error _ => (.generationFailed, true)

/-! ### Supporting lemmas -/

theorem validPhone_ne_empty {p : String} (h : validPhone p = true) : p ≠ "" := by
  intro he
  subst he
  exact absurd h (by decide)

theorem validationMessages_eq_nil {name phone : String}
    (hname : trimString name ≠ "") (hp : validPhone phone = true) :
    validationMessages name phone = [] := by
  unfold validationMessages
  rw [if_neg hname, if_neg (validPhone_ne_empty hp), if_pos hp]
  rfl

theorem verifyToken_ne_empty (env : Option String) : verifyToken env ≠ "" := by
  unfold verifyToken
  match env with
  | none => decide
  | some s =>
    by_cases hs : s = ""
    · simp [hs]
    · simp [hs]

theorem not_mem_map_id_eraseP (l : List Contact) (id : String)
    (h : (l.map Contact.id).Nodup) :
    id ∉ (l.eraseP (fun c => c.id = id)).map Contact.id := by
  induction l with
  | nil => simp
  | cons c t ih =>
    rw [List.map_cons, List.nodup_cons] at h
    obtain ⟨hc, ht⟩ := h
    by_cases hcid : c.id = id
    · rw [List.eraseP_cons_of_pos (by simp [hcid])]
      rw [← hcid]
      exact hc
    · rw [List.eraseP_cons_of_neg (by simp [hcid])]
      rw [List.map_cons]
      intro hmem
      rcases List.mem_cons.mp hmem with heq | hmem'
      · exact hcid heq.symm
      · exact ih ht hmem'

/-- Creating a contact preserves the store invariant that every stored phone
passes the schema's shape check: a record is only appended after the
validator branch accepted its phone. -/
theorem createContact_preserves_phonesValid (s : Store) (name phone newId : String)
    (now : Nat) (h : phonesValid s = true) :
    phonesValid (createContact s name phone newId now).1 = true := by
  unfold createContact
  by_cases hmsg : validationMessages name phone ≠ []
  · rw [if_pos hmsg]
    exact h
  · rw [if_neg hmsg]
    by_cases hdup : s.contacts.any (fun c => c.phone = phone) = true
    · rw [if_pos hdup]
      exact h
    · rw [if_neg hdup]
      push_neg at hmsg
      have hvp : validPhone phone = true := by
        unfold validationMessages at hmsg
        rcases List.append_eq_nil.mp hmsg with ⟨-, h2⟩
        by_cases hpe : phone = ""
        · rw [if_pos hpe] at h2
          exact absurd h2 (by simp)
        · rw [if_neg hpe] at h2
          by_cases hv : validPhone phone = true
          · exact hv
          · rw [if_neg (by simp [hv] : ¬ validPhone phone = true)] at h2
            exact absurd h2 (by simp)
      unfold phonesValid at h ⊢
      rw [List.all_append]
      simp [h, hvp]

/-! ### Claims -/

/-- C1: for every phone value already present in the store (with the store
satisfying its invariant that stored phones pass the shape check, and a
non-blank name so only the uniqueness constraint is at stake), a second
createContact with that phone fails with the duplicate error, HTTP 409 and
message "Phone number already exists.", and the store, hence its contact
count, is unchanged. -/
theorem createContact_duplicate_phone (s : Store) (name phone newId : String)
    (now : Nat) (hinv : phonesValid s = true) (hname : trimString name ≠ "")
    (hdup : phone ∈ s.contacts.map Contact.phone) :
    createContact s name phone newId now =
      (s, .failed 409 "Phone number already exists.") := by
  obtain ⟨c, hc, hcphone⟩ := List.mem_map.mp hdup
  have hvp : validPhone phone = true := by
    have := List.all_eq_true.mp hinv c hc
    simpa [hcphone] using this
  have hmsgs := validationMessages_eq_nil hname hvp
  have hany : s.contacts.any (fun c => c.phone = phone) = true :=
    List.any_eq_true.mpr ⟨c, hc, by simp [hcphone]⟩
  unfold createContact
  rw [hmsgs]
  rw [if_neg (by simp)]
  rw [if_pos hany]

/-- C1 witness: a store holding Jane Doe at +12125551234 rejects a repeated
create with that phone, leaving the store unchanged. -/
theorem createContact_duplicate_phone_witness :
    createContact ⟨[⟨"aaaaaaaaaaaaaaaaaaaaaaaa", "Jane Doe", "+12125551234", 0⟩]⟩
        "Jane Doe" "+12125551234" "bbbbbbbbbbbbbbbbbbbbbbbb" 1 =
      (⟨[⟨"aaaaaaaaaaaaaaaaaaaaaaaa", "Jane Doe", "+12125551234", 0⟩]⟩,
        .failed 409 "Phone number already exists.") :=
  createContact_duplicate_phone _ _ _ _ _ (by decide) (by decide) (by decide)

/-- C4: for every phone string failing the E.164 regex, createContact fails
with a 400 validation response and the store is unchanged, whatever the
name. -/
theorem createContact_invalid_phone (s : Store) (name phone newId : String)
    (now : Nat) (h : validPhone phone = false) :
    (createContact s name phone newId now).1 = s ∧
      ∃ msg, (createContact s name phone newId now).2 = .failed 400 msg := by
  have hne : validationMessages name phone ≠ [] := by
    unfold validationMessages
    intro hcontra
    rcases List.append_eq_nil.mp hcontra with ⟨-, h2⟩
    by_cases hpe : phone = ""
    · rw [if_pos hpe] at h2
      exact absurd h2 (by simp)
    · rw [if_neg hpe, if_neg (by simp [h])] at h2
      exact absurd h2 (by simp)
  unfold createContact
  rw [if_pos hne]
  exact ⟨rfl, _, rfl⟩

/-- C4 witness: the phone string 12345 (no plus sign) is rejected with 400
and an empty store stays empty. -/
theorem createContact_invalid_phone_witness :
    (createContact ⟨[]⟩ "Bob" "12345" "cccccccccccccccccccccccc" 0).1 = ⟨[]⟩ ∧
      ∃ msg, (createContact ⟨[]⟩ "Bob" "12345" "cccccccccccccccccccccccc" 0).2 =
        .failed 400 msg :=
  createContact_invalid_phone _ _ _ _ _ (by decide)

/-- C5 counterexample: the claim holds the regex accepts a plus sign
followed by a single digit, but the regex requires at least one further
digit after the leading 1-9, so the claim's own example +7 fails the shape
check and createContact rejects it with 400 instead of creating the
contact. -/
theorem plus7_rejected :
    validPhone "+7" = false ∧
      createContact ⟨[]⟩ "Bob" "+7" "cccccccccccccccccccccccc" 0 =
        (⟨[]⟩, .failed 400 "Please provide a valid phone number in E.164 format") := by
  decide

/-- C5 amended: the regex accepts a plus sign followed by a first digit 1-9
and then one to fourteen further digits, i.e. two to fifteen digits in all;
every such string passes the shape check and, with a non-blank name and no
duplicate, the contact is created. -/
theorem createContact_accepts_e164 (s : Store) (name : String) (d : Char)
    (rest : List Char) (newId : String) (now : Nat)
    (hd1 : '1' ≤ d) (hd9 : d ≤ '9') (hrest : rest.all Char.isDigit = true)
    (hlen1 : 1 ≤ rest.length) (hlen2 : rest.length ≤ 14)
    (hname : trimString name ≠ "")
    (hdup : String.mk ('+' :: d :: rest) ∉ s.contacts.map Contact.phone) :
    validPhone (String.mk ('+' :: d :: rest)) = true ∧
      createContact s name (String.mk ('+' :: d :: rest)) newId now =
        (⟨s.contacts ++ [⟨newId, trimString name, String.mk ('+' :: d :: rest), now⟩]⟩,
          .created ⟨newId, trimString name, String.mk ('+' :: d :: rest), now⟩) := by
  have hvp : validPhone (String.mk ('+' :: d :: rest)) = true := by
    show (('1' ≤ d && d ≤ '9') && rest.all (fun c => c.isDigit)
      && (1 ≤ rest.length && rest.length ≤ 14)) = true
    simp [hd1, hd9, hlen1, hlen2]
    exact fun c hc => by simpa using List.all_eq_true.mp hrest c hc
  refine ⟨hvp, ?_⟩
  have hany : s.contacts.any (fun c => c.phone = String.mk ('+' :: d :: rest)) = false := by
    rw [Bool.eq_false_iff]
    intro hcontra
    obtain ⟨c, hc, heq⟩ := List.any_eq_true.mp hcontra
    exact hdup (List.mem_map.mpr ⟨c, hc, by simpa using heq⟩)
  unfold createContact
  rw [validationMessages_eq_nil hname hvp]
  rw [if_neg (by simp), if_neg (by simp [hany])]

/-- C5 amended witness: the phone +71 (two digits) is accepted and the
contact created in an empty store. -/
theorem createContact_accepts_e164_witness :
    validPhone (String.mk ['+', '7', '1']) = true ∧
      createContact ⟨[]⟩ "Amy" (String.mk ['+', '7', '1']) "dddddddddddddddddddddddd" 5 =
        (⟨[⟨"dddddddddddddddddddddddd", "Amy", String.mk ['+', '7', '1'], 5⟩]⟩,
          .created ⟨"dddddddddddddddddddddddd", "Amy", String.mk ['+', '7', '1'], 5⟩) :=
  createContact_accepts_e164 ⟨[]⟩ "Amy" '7' ['1'] _ _ (by decide) (by decide)
    (by decide) (by decide) (by decide) (by decide) (by decide)

/-- C2 counterexample: the claim orders the recipients parse before the
message-content check, but the handler tests content and media first, so a
request with an unparseable contacts field, absent content and no media is
rejected as an empty message, not as a malformed payload. -/
theorem bulk_blank_unparseable_reports_emptyMessage :
    sendBulkValidate none false .parseFailure = .emptyMessage ∧
      sendBulkValidate none false .parseFailure ≠ .malformed := by
  decide

/-- C2 amended: the handler short-circuits in this order: first the
empty-message check (blank or absent content and no media), then the parse
of the recipients field (failure reported as invalid contacts format), then
the combined not-an-array-or-empty rejection; a non-empty array is accepted.
In particular a request with unparseable recipients and a blank, media-less
message reports the empty-message error. -/
theorem sendBulkValidate_check_order :
    (∀ content media contacts, hasTextContent content = false → media = false →
        sendBulkValidate content media contacts = .emptyMessage) ∧
    (∀ content media,
        (hasTextContent content = true ∨ media = true) →
        sendBulkValidate content media .parseFailure = .malformed ∧
        sendBulkValidate content media .notArray = .noContacts ∧
        sendBulkValidate content media (.arrayOf []) = .noContacts ∧
        ∀ r rs, sendBulkValidate content media (.arrayOf (r :: rs)) =
          .accepted (r :: rs).length) := by
  constructor
  · intro content media contacts hc hm
    unfold sendBulkValidate
    rw [hc, hm]
    rfl
  · intro content media h
    have hcond : (!hasTextContent content && !media) = false := by
      rcases h with h | h <;> simp [h]
    unfold sendBulkValidate
    rw [hcond]
    refine ⟨rfl, rfl, rfl, fun r rs => ?_⟩
    simp

/-- C2 amended witness: blank content with no media wins over an unparseable
contacts field, and with text content present the unparseable field is
reported as malformed. -/
theorem sendBulkValidate_check_order_witness :
    sendBulkValidate none false .parseFailure = .emptyMessage ∧
      sendBulkValidate (some "hello") false .parseFailure = .malformed :=
  ⟨sendBulkValidate_check_order.1 none false .parseFailure rfl rfl,
    (sendBulkValidate_check_order.2 (some "hello") false (Or.inl (by decide))).1⟩

/-- C3: the empty-message rejection happens only when content is blank or
absent and no media file was uploaded; consequently a request with blank
content, a media file and a non-empty parsed recipients array is accepted
with HTTP 200. -/
theorem sendBulk_media_saves_blank_content :
    (∀ content media contacts,
        sendBulkValidate content media contacts = .emptyMessage →
        hasTextContent content = false ∧ media = false) ∧
    (∀ content r rs, hasTextContent content = false →
        sendBulkValidate content true (.arrayOf (r :: rs)) =
          .accepted (r :: rs).length ∧
        bulkStatus (sendBulkValidate content true (.arrayOf (r :: rs))) = 200) := by
  constructor
  · intro content media contacts h
    by_cases hcond : (!hasTextContent content && !media) = true
    · simpa using hcond
    · exfalso
      unfold sendBulkValidate at h
      rw [if_neg hcond] at h
      cases contacts with
      | parseFailure => exact absurd h (by decide)
      | notArray => exact absurd h (by decide)
      | arrayOf l =>
        have h' : (if l.length = 0 then BulkOutcome.noContacts
            else BulkOutcome.accepted l.length) = BulkOutcome.emptyMessage := h
        by_cases hl : l.length = 0
        · rw [if_pos hl] at h'
          exact absurd h' (by decide)
        · rw [if_neg hl] at h'
          exact absurd h' (by simp)
  · intro content r rs h
    simp [sendBulkValidate, h, bulkStatus]

/-- C3 witness: blank content plus a media file and one recipient is
accepted with 200. -/
theorem sendBulk_media_saves_blank_content_witness :
    sendBulkValidate none true (.arrayOf [⟨"Amy", "+10000000002"⟩]) =
      .accepted 1 ∧
    bulkStatus (sendBulkValidate none true (.arrayOf [⟨"Amy", "+10000000002"⟩])) =
      200 :=
  sendBulk_media_saves_blank_content.2 none ⟨"Amy", "+10000000002"⟩ [] rfl

instance : IsTotal Contact (fun a b => a.name ≤ b.name) :=
  ⟨fun a b => le_total a.name b.name⟩

instance : IsTrans Contact (fun a b => a.name ≤ b.name) :=
  ⟨fun _ _ _ h₁ h₂ => le_trans h₁ h₂⟩

/-- C6: listContacts returns exactly the stored records (a permutation of
the collection) sorted by name ascending, for every store state; in
particular inserting Zoe then Amy lists Amy before Zoe. -/
theorem listContacts_sorted_by_name :
    (∀ s : Store,
        List.Sorted (fun a b : Contact => a.name ≤ b.name) (listContacts s) ∧
        List.Perm (listContacts s) s.contacts) ∧
    listContacts
        (createContact
          (createContact ⟨[]⟩ "Zoe" "+10000000001" "aaaaaaaaaaaaaaaaaaaaaaaa" 0).1
          "Amy" "+10000000002" "bbbbbbbbbbbbbbbbbbbbbbbb" 1).1 =
      [⟨"bbbbbbbbbbbbbbbbbbbbbbbb", "Amy", "+10000000002", 1⟩,
        ⟨"aaaaaaaaaaaaaaaaaaaaaaaa", "Zoe", "+10000000001", 0⟩] := by
  refine ⟨fun s => ⟨List.sorted_insertionSort _ _, List.perm_insertionSort _ _⟩, ?_⟩
  have h1 : (createContact ⟨[]⟩ "Zoe" "+10000000001" "aaaaaaaaaaaaaaaaaaaaaaaa" 0).1 =
      ⟨[⟨"aaaaaaaaaaaaaaaaaaaaaaaa", "Zoe", "+10000000001", 0⟩]⟩ := by
    decide
  rw [h1]
  have h2 : (createContact ⟨[⟨"aaaaaaaaaaaaaaaaaaaaaaaa", "Zoe", "+10000000001", 0⟩]⟩
      "Amy" "+10000000002" "bbbbbbbbbbbbbbbbbbbbbbbb" 1).1 =
      ⟨[⟨"aaaaaaaaaaaaaaaaaaaaaaaa", "Zoe", "+10000000001", 0⟩,
        ⟨"bbbbbbbbbbbbbbbbbbbbbbbb", "Amy", "+10000000002", 1⟩]⟩ := by
    decide
  rw [h2]
  simp [listContacts, List.insertionSort, List.orderedInsert]
  decide

/-- C7: deleting a present id (well formed, with the store's ids distinct as
Mongo ids are) succeeds with 200, and an immediately repeated delete of the
same id reports not-found with 404 instead of succeeding again. -/
theorem deleteContact_twice (s : Store) (id : String)
    (hvalid : isValidObjectId id = true)
    (hmem : id ∈ s.contacts.map Contact.id)
    (hnodup : (s.contacts.map Contact.id).Nodup) :
    (deleteContact s id).2 = .success ∧
      deleteStatus (deleteContact s id).2 = 200 ∧
      (deleteContact (deleteContact s id).1 id).2 = .notFound ∧
      deleteStatus (deleteContact (deleteContact s id).1 id).2 = 404 := by
  have hany : s.contacts.any (fun c => c.id = id) = true := by
    obtain ⟨c, hc, hcid⟩ := List.mem_map.mp hmem
    exact List.any_eq_true.mpr ⟨c, hc, by simp [hcid]⟩
  have h1 : deleteContact s id =
      (⟨s.contacts.eraseP (fun c => c.id = id)⟩, .success) := by
    unfold deleteContact
    rw [if_neg (by simp [hvalid]), if_pos hany]
  have hnot := not_mem_map_id_eraseP s.contacts id hnodup
  have hany2 : (s.contacts.eraseP (fun c => c.id = id)).any
      (fun c => c.id = id) = false := by
    rw [Bool.eq_false_iff]
    intro hc
    obtain ⟨c, hc', heq⟩ := List.any_eq_true.mp hc
    exact hnot (List.mem_map.mpr ⟨c, hc', by simpa using heq⟩)
  have h2 : deleteContact ⟨s.contacts.eraseP (fun c => c.id = id)⟩ id =
      (⟨s.contacts.eraseP (fun c => c.id = id)⟩, .notFound) := by
    unfold deleteContact
    rw [if_neg (by simp [hvalid]), if_neg (by simp [hany2])]
  have h3 : (deleteContact s id).1 = ⟨s.contacts.eraseP (fun c => c.id = id)⟩ := by
    rw [h1]
  have h4 : (deleteContact s id).2 = DeleteOutcome.success := by
    rw [h1]
  exact ⟨h4, by rw [h4]; rfl, by rw [h3, h2], by rw [h3, h2]; rfl⟩

/-- C7 witness: a one-record store with a well-formed 24-hex-character id:
the first delete succeeds, the second reports not-found. -/
theorem deleteContact_twice_witness :
    (deleteContact ⟨[⟨"aaaaaaaaaaaaaaaaaaaaaaaa", "Jane", "+12125551234", 0⟩]⟩
        "aaaaaaaaaaaaaaaaaaaaaaaa").2 = .success ∧
      deleteStatus (deleteContact
        ⟨[⟨"aaaaaaaaaaaaaaaaaaaaaaaa", "Jane", "+12125551234", 0⟩]⟩
        "aaaaaaaaaaaaaaaaaaaaaaaa").2 = 200 ∧
      (deleteContact (deleteContact
          ⟨[⟨"aaaaaaaaaaaaaaaaaaaaaaaa", "Jane", "+12125551234", 0⟩]⟩
          "aaaaaaaaaaaaaaaaaaaaaaaa").1 "aaaaaaaaaaaaaaaaaaaaaaaa").2 = .notFound ∧
      deleteStatus (deleteContact (deleteContact
          ⟨[⟨"aaaaaaaaaaaaaaaaaaaaaaaa", "Jane", "+12125551234", 0⟩]⟩
          "aaaaaaaaaaaaaaaaaaaaaaaa").1 "aaaaaaaaaaaaaaaaaaaaaaaa").2 = 404 :=
  deleteContact_twice _ _ (by decide) (by decide) (by decide)

/-- C8 counterexample: the claim requires 400 whenever hub.challenge is
missing, but the handler never tests the challenge parameter: with a correct
mode and token and no challenge it replies 200 (sending back the absent
value), not 400. -/
theorem webhook_missing_challenge_gets_200 :
    webhookVerify none (some "subscribe") (some "merajWebhookToken") none =
      .challengeReply none ∧
    webhookStatus
      (webhookVerify none (some "subscribe") (some "merajWebhookToken") none) ≠
        400 := by
  decide

/-- C8 amended: the handler replies 200 echoing the challenge exactly when
mode equals subscribe and token equals the configured secret; 400 exactly
when mode or token is missing or empty; 403 in the remaining cases.  The
presence of hub.challenge is never checked. -/
theorem webhookVerify_characterization (env mode token challenge : Option String) :
    (webhookVerify env mode token challenge = .challengeReply challenge ↔
      mode = some "subscribe" ∧ token = some (verifyToken env)) ∧
    (webhookVerify env mode token challenge = .badRequest ↔
      (isTruthy mode = false ∨ isTruthy token = false)) ∧
    (webhookVerify env mode token challenge = .forbidden ↔
      (isTruthy mode = true ∧ isTruthy token = true ∧
        ¬(mode = some "subscribe" ∧ token = some (verifyToken env)))) := by
  unfold webhookVerify
  by_cases h1 : (isTruthy mode && isTruthy token) = true
  · rw [if_pos h1]
    rw [Bool.and_eq_true] at h1
    by_cases h2 : (mode = some "subscribe" && token = some (verifyToken env)) = true
    · rw [if_pos h2]
      simp only [Bool.and_eq_true, decide_eq_true_eq] at h2
      refine ⟨by simp [h2], by simp [h1], by simp [h2]⟩
    · rw [if_neg h2]
      simp only [Bool.and_eq_true, decide_eq_true_eq, not_and] at h2
      push_neg at h2
      refine ⟨by simp ; exact h2, by simp [h1], by simp [h1] ; exact h2⟩
  · rw [if_neg h1]
    rw [Bool.and_eq_true, not_and_or] at h1
    have hmt : isTruthy mode = false ∨ isTruthy token = false := by
      rcases h1 with h | h
      · exact Or.inl (Bool.eq_false_iff.mpr h)
      · exact Or.inr (Bool.eq_false_iff.mpr h)
    refine ⟨?_, by simp [hmt], ?_⟩
    · constructor
      · intro h
        exact absurd h (by simp)
      · rintro ⟨hm, ht⟩
        exfalso
        rcases hmt with h | h
        · rw [hm] at h
          exact absurd h (by simp [isTruthy])
        · rw [ht] at h
          simp only [isTruthy] at h
          exact verifyToken_ne_empty env (by simpa using h)
    · constructor
      · intro h
        exact absurd h (by simp)
      · rintro ⟨hm, ht, -⟩
        rcases hmt with h | h
        · rw [hm] at h
          exact absurd h (by simp)
        · rw [ht] at h
          exact absurd h (by simp)

/-- C9: with no API key in the environment at process start (absent or
empty, so the AI client was never constructed), every generate-content
request replies 503 not-configured and the downstream text-generation call
is never attempted, whatever the heading and whatever the downstream would
have returned. -/
theorem generateContent_unconfigured_never_calls (apiKey : Option String)
    (h : aiConfigured apiKey = false) (heading : Option String)
    (downstream : Except Unit String) :
    generateContentHandler apiKey heading downstream = (.notConfigured, false) ∧
      genStatus (generateContentHandler apiKey heading downstream).1 = 503 := by
  unfold generateContentHandler
  rw [h]
  exact ⟨rfl, rfl⟩

/-- C9 witness: no API key, a valid heading and a downstream that would
succeed: the handler still replies 503 without calling downstream. -/
theorem generateContent_unconfigured_never_calls_witness :
    generateContentHandler none (some "Sale") (.ok "text") =
      (.notConfigured, false) ∧
    genStatus (generateContentHandler none (some "Sale") (.ok "text")).1 = 503 :=
  generateContent_unconfigured_never_calls none rfl (some "Sale") (.ok "text")

/-- C10: with the WEBHOOK_VERIFY_TOKEN environment variable absent,
verification falls back to the hard-coded token: a subscribe request
carrying that token is answered 200 echoing whatever challenge value was
supplied. -/
theorem webhook_default_token_accepts (challenge : Option String) :
    webhookVerify none (some "subscribe") (some "merajWebhookToken") challenge =
      .challengeReply challenge ∧
    webhookStatus (webhookVerify none (some "subscribe") (some "merajWebhookToken")
      challenge) = 200 :=
  ⟨rfl, rfl⟩

end WhatsappSaas
